import Mathlib

/- Verification of the batch coordination and execution pipeline of a
privacy preserving RPC proxy.  Byte buffers are modelled as `List Nat`
(one entry per byte), machine integers as `Nat` / `Int` with explicit
reduction modulo powers of two where overflow matters, and fallible
reads as an outcome type that distinguishes a Rust panic (out of range
slice indexing) from a clean `None` return. -/

/-- Little endian interpretation of a byte list, as in
`u64::from_le_bytes` / `u32::from_le_bytes`. -/
def leNat (bs : List Nat) : Nat :=
  bs.foldr (fun b acc => b + 256 * acc) 0

/-- Two complement interpretation of 8 little endian bytes, as in
`i64::from_le_bytes`. -/
def i64OfLe (bs : List Nat) : Int :=
  let v := leNat bs
  if v < 2 ^ 63 then (v : Int) else (v : Int) - 2 ^ 64

/-- Outcome of running a piece of Rust code that can panic (index out of
range), return `None`, or return a value. -/
inductive ParseOutcome (α : Type) where
  | panics : ParseOutcome α
  | absent : ParseOutcome α
  | found : α → ParseOutcome α
deriving DecidableEq, Repr

namespace ParseOutcome

def bind {α β : Type} : ParseOutcome α → (α → ParseOutcome β) → ParseOutcome β
  | panics, _ => panics
  | absent, _ => absent
  | found a, f => f a

end ParseOutcome

/-- Batch status as decoded by the proxy from the on chain byte 0, 1, 2. -/
inductive OnChainBatchStatus where
  | pending : OnChainBatchStatus
  | finalized : OnChainBatchStatus
  | executed : OnChainBatchStatus
deriving DecidableEq, Repr

/-- The record reconstructed from a raw batch account (the `bump` byte at
the very end of the layout is never read by the proxy). -/
structure OnChainBatch where
  id : Nat
  status : OnChainBatchStatus
  query_count : Nat
  query_hashes : List (List Nat)
  submitters : List (List Nat)
  created_at : Int
  finalized_at : Option Int
  results_hash : Option (List Nat)
deriving DecidableEq, Repr

/-- `&data[off .. off + n]` followed by an infallible `try_into`: panics
when the range is out of bounds, otherwise yields exactly `n` bytes. -/
def sliceB (data : List Nat) (off n : Nat) : ParseOutcome (List Nat) :=
  if off + n ≤ data.length then .found ((data.drop off).take n) else .panics

/-- `data[off]`: panics when `off` is out of bounds. -/
def byteB (data : List Nat) (off : Nat) : ParseOutcome Nat :=
  match data[off]? with
  | some b => .found b
  | none => .panics

/-- Reads `k` consecutive 32 byte chunks starting at `off`; returns the
chunks together with the offset just after the last one.  This models
both vector loops of `parse_batch_data` (a `Pubkey` is kept as its 32
raw bytes, because `Pubkey::try_from` on a 32 byte slice never fails). -/
def readChunks (data : List Nat) (off : Nat) : Nat → ParseOutcome (List (List Nat) × Nat)
  | 0 => .found ([], off)
  | k + 1 =>
    ParseOutcome.bind (sliceB data off 32) fun h =>
    ParseOutcome.bind (readChunks data (off + 32) k) fun r =>
    .found (h :: r.1, r.2)

namespace CoordinatorReader

/-- Faithful model of `CoordinatorReader::parse_batch_data`.  The Rust
code checks only `data.len() < 20` up front and afterwards slices with
plain indexing (which panics when the buffer is too short); a status
byte outside 0, 1, 2 returns `None`; an optional field is present
exactly when its flag byte equals 1. -/
def parse_batch_data (data : List Nat) : ParseOutcome OnChainBatch :=
  if data.length < 20 then .absent
  else
    ParseOutcome.bind (sliceB data 8 8) fun idB =>
    ParseOutcome.bind (byteB data 16) fun statusByte =>
    ParseOutcome.bind
      (if statusByte = 0 then .found OnChainBatchStatus.pending
       else if statusByte = 1 then .found OnChainBatchStatus.finalized
       else if statusByte = 2 then .found OnChainBatchStatus.executed
       else .absent) fun status =>
    ParseOutcome.bind (byteB data 17) fun query_count =>
    ParseOutcome.bind (sliceB data 18 4) fun hlB =>
    ParseOutcome.bind (readChunks data 22 (leNat hlB)) fun qh =>
    ParseOutcome.bind (sliceB data qh.2 4) fun slB =>
    ParseOutcome.bind (readChunks data (qh.2 + 4) (leNat slB)) fun sub =>
    ParseOutcome.bind (sliceB data sub.2 8) fun caB =>
    ParseOutcome.bind (byteB data (sub.2 + 8)) fun fFlag =>
    ParseOutcome.bind
      (if fFlag == 1 then
        ParseOutcome.bind (sliceB data (sub.2 + 9) 8) fun faB =>
        .found (some (i64OfLe faB), sub.2 + 17)
      else .found (none, sub.2 + 9)) fun fa =>
    ParseOutcome.bind (byteB data fa.2) fun rFlag =>
    ParseOutcome.bind
      (if rFlag == 1 then
        ParseOutcome.bind (sliceB data (fa.2 + 1) 32) fun rhB =>
        .found (some rhB)
      else .found (none : Option (List Nat))) fun rh =>
    .found {
      id := leNat idB
      status := status
      query_count := query_count
      query_hashes := qh.1
      submitters := sub.1
      created_at := i64OfLe caB
      finalized_at := fa.1
      results_hash := rh }

/-- Model of `CoordinatorReader::get_batch_counter`.  The config account
bytes are `none` when the RPC fetch fails; the counter sits at bytes
42 .. 50 after the 8 byte discriminator, the 32 byte authority and the
two size bytes. -/
def get_batch_counter (configAccount : Option (List Nat)) : Option Nat :=
  match configAccount with
  | none => none
  | some data =>
    if data.length < 50 then none
    else some (leNat ((data.drop 42).take 8))

/-- Model of `CoordinatorReader::get_batch`: a failed account fetch is a
clean `None`; fetched bytes go through `parse_batch_data`. -/
def get_batch (batchAccount : Nat → Option (List Nat)) (batch_id : Nat) :
    ParseOutcome OnChainBatch :=
  match batchAccount batch_id with
  | none => .absent
  | some data => parse_batch_data data

/-- The probe loop of `find_finalized_batches` over a list of ids: a
panic inside `get_batch` aborts the scan, a clean `None` merely skips
the id, and only batches whose status is `Finalized` are collected, in
probe order. -/
def scan_ids (batchAccount : Nat → Option (List Nat)) :
    List Nat → ParseOutcome (List OnChainBatch)
  | [] => .found []
  | i :: rest =>
    match get_batch batchAccount i with
    | .panics => .panics
    | .absent => scan_ids batchAccount rest
    | .found b =>
      ParseOutcome.bind (scan_ids batchAccount rest) fun tail =>
      .found (if b.status = OnChainBatchStatus.finalized then b :: tail else tail)

/-- Model of `CoordinatorReader::find_finalized_batches`: an unreadable
counter degrades to an empty snapshot, otherwise ids `0 .. counter - 1`
are probed in order. -/
def find_finalized_batches (configAccount : Option (List Nat))
    (batchAccount : Nat → Option (List Nat)) : ParseOutcome (List OnChainBatch) :=
  match get_batch_counter configAccount with
  | none => .found []
  | some counter => scan_ids batchAccount (List.range counter)

end CoordinatorReader

/-- 8 little endian bytes of a `u64` value. -/
def le8 (n : Nat) : List Nat :=
  [n % 256, n / 256 % 256, n / 256 ^ 2 % 256, n / 256 ^ 3 % 256,
   n / 256 ^ 4 % 256, n / 256 ^ 5 % 256, n / 256 ^ 6 % 256, n / 256 ^ 7 % 256]

/-- 4 little endian bytes of a `u32` value. -/
def le4 (n : Nat) : List Nat :=
  [n % 256, n / 256 % 256, n / 256 ^ 2 % 256, n / 256 ^ 3 % 256]

/-- A minimal well formed batch account buffer (empty hash and submitter
vectors, zero timestamps, both optional fields absent), used to build
concrete ledger states in the theorems below. -/
def encBatchMin (id status : Nat) : List Nat :=
  List.replicate 8 0 ++ le8 id ++ [status] ++ [0] ++ le4 0 ++ le4 0 ++
    le8 0 ++ [0] ++ [0] ++ [0]

/- ### SHA-256 over byte lists, as used by `BatchResponse::from_results` -/

/-- Reduction modulo `2 ^ 32`. -/
def w32 (n : Nat) : Nat := n % 4294967296

/-- Right rotation of a 32 bit word. -/
def rotr32 (x n : Nat) : Nat := w32 (x / 2 ^ n + x % 2 ^ n * 2 ^ (32 - n))

/-- Bitwise complement of a 32 bit word. -/
def not32 (x : Nat) : Nat := 4294967295 - x

def shaCh (e f g : Nat) : Nat := (e &&& f) ^^^ (not32 e &&& g)

def shaMaj (a b c : Nat) : Nat := (a &&& b) ^^^ (a &&& c) ^^^ (b &&& c)

def shaBig0 (a : Nat) : Nat := rotr32 a 2 ^^^ rotr32 a 13 ^^^ rotr32 a 22

def shaBig1 (e : Nat) : Nat := rotr32 e 6 ^^^ rotr32 e 11 ^^^ rotr32 e 25

def shaSmall0 (x : Nat) : Nat := rotr32 x 7 ^^^ rotr32 x 18 ^^^ x / 2 ^ 3

def shaSmall1 (x : Nat) : Nat := rotr32 x 17 ^^^ rotr32 x 19 ^^^ x / 2 ^ 10

/-- The 64 SHA-256 round constants of FIPS 180-4, in decimal. -/
def shaK : List Nat :=
  [1116352408, 1899447441, 3049323471, 3921009573, 961987163,
   1508970993, 2453635748, 2870763221, 3624381080, 310598401,
   607225278, 1426881987, 1925078388, 2162078206, 2614888103,
   3248222580, 3835390401, 4022224774, 264347078, 604807628,
   770255983, 1249150122, 1555081692, 1996064986, 2554220882,
   2821834349, 2952996808, 3210313671, 3336571891, 3584528711,
   113926993, 338241895, 666307205, 773529912, 1294757372,
   1396182291, 1695183700, 1986661051, 2177026350, 2456956037,
   2730485921, 2820302411, 3259730800, 3345764771, 3516065817,
   3600352804, 4094571909, 275423344, 430227734, 506948616,
   659060556, 883997877, 958139571, 1322822218, 1537002063,
   1747873779, 1955562222, 2024104815, 2227730452, 2361852424,
   2428436474, 2756734187, 3204031479, 3329325298]

/-- The SHA-256 initial hash state of FIPS 180-4, in decimal. -/
def shaH0 : List Nat :=
  [1779033703, 3144134277, 1013904242, 2773480762, 1359893119,
   2600822924, 528734635, 1541459225]

/-- Big endian 32 bit words from a byte list (4 bytes per word). -/
def beWords : List Nat → List Nat
  | b0 :: b1 :: b2 :: b3 :: rest => (((b0 * 256 + b1) * 256 + b2) * 256 + b3) :: beWords rest
  | _ => []

/-- Extends a 16 word block schedule by `k` further words. -/
def extendW (ws : List Nat) : Nat → List Nat
  | 0 => ws
  | k + 1 =>
    let n := ws.length
    extendW
      (ws ++ [w32 (shaSmall1 (ws.getD (n - 2) 0) + ws.getD (n - 7) 0 +
        shaSmall0 (ws.getD (n - 15) 0) + ws.getD (n - 16) 0)]) k

/-- One SHA-256 compression round. -/
def shaRound (st : Nat × Nat × Nat × Nat × Nat × Nat × Nat × Nat)
    (kw : Nat × Nat) : Nat × Nat × Nat × Nat × Nat × Nat × Nat × Nat :=
  match st with
  | (a, b, c, d, e, f, g, h) =>
    let t1 := w32 (h + shaBig1 e + shaCh e f g + kw.1 + kw.2)
    let t2 := w32 (shaBig0 a + shaMaj a b c)
    (w32 (t1 + t2), a, b, c, w32 (d + t1), e, f, g)

/-- Compression of one 64 byte block into the running hash state. -/
def compressBlock (h : List Nat) (block : List Nat) : List Nat :=
  let ws := extendW (beWords block) 48
  match (shaK.zip ws).foldl shaRound
      (h.getD 0 0, h.getD 1 0, h.getD 2 0, h.getD 3 0,
       h.getD 4 0, h.getD 5 0, h.getD 6 0, h.getD 7 0) with
  | (a, b, c, d, e, f, g, hh) =>
    List.zipWith (fun x y => w32 (x + y)) h [a, b, c, d, e, f, g, hh]

/-- 8 big endian bytes of a length value. -/
def be8 (n : Nat) : List Nat :=
  [n / 256 ^ 7 % 256, n / 256 ^ 6 % 256, n / 256 ^ 5 % 256, n / 256 ^ 4 % 256,
   n / 256 ^ 3 % 256, n / 256 ^ 2 % 256, n / 256 % 256, n % 256]

/-- SHA-256 padding: a 0x80 byte, zeros up to 56 mod 64, then the bit
length as 8 big endian bytes. -/
def padMsg (msg : List Nat) : List Nat :=
  let l := msg.length
  msg ++ [128] ++ List.replicate ((120 - (l + 1) % 64) % 64) 0 ++ be8 (8 * l)

/-- Splits a padded message into its `k` blocks of 64 bytes. -/
def takeBlocks : Nat → List Nat → List (List Nat)
  | 0, _ => []
  | k + 1, l => l.take 64 :: takeBlocks k (l.drop 64)

/-- SHA-256 of a byte list, as a list of 32 digest bytes. -/
def sha256 (msg : List Nat) : List Nat :=
  let padded := padMsg msg
  let hs := (takeBlocks (padded.length / 64) padded).foldl compressBlock shaH0
  hs.foldr
    (fun w acc => w / 2 ^ 24 % 256 :: w / 2 ^ 16 % 256 :: w / 2 ^ 8 % 256 :: w % 256 :: acc) []

/-- One lowercase hexadecimal digit. -/
def hexDigit (n : Nat) : Char :=
  if n < 10 then Char.ofNat (48 + n) else Char.ofNat (87 + n)

/-- Lowercase hexadecimal rendering of a byte list, as in `hex::encode`. -/
def hexEncode (bs : List Nat) : String :=
  String.mk (bs.foldr (fun b acc => hexDigit (b / 16) :: hexDigit (b % 16) :: acc) [])

/-- The bytes of a string (`str::as_bytes`); the strings appearing in
the claims are ASCII, where the code points are the UTF-8 bytes. -/
def strBytes (s : String) : List Nat := s.data.map Char.toNat

/- ### Executor side types and operations -/

/-- The fixed admission ceiling from `types/config.rs`. -/
def MAX_BATCH_SIZE : Nat := 100

/-- The error taxonomy of `error.rs`. -/
inductive ProxyError where
  | solanaRpc : String → ProxyError
  | invalidQuery : String → ProxyError
  | invalidPubkey : String → ProxyError
  | batchTooLarge : Nat → Nat → ProxyError
  | emptyBatch : ProxyError
  | internal : String → ProxyError
  | timeout : Nat → ProxyError
deriving DecidableEq, Repr

/-- `ProxyError::batch_too_large` fills in `max = MAX_BATCH_SIZE`. -/
def ProxyError.batch_too_large (actual : Nat) : ProxyError :=
  ProxyError.batchTooLarge actual MAX_BATCH_SIZE

/-- The fixed RPC method enumeration. -/
inductive RpcMethod where
  | getBalance : RpcMethod
  | getAccountInfo : RpcMethod
  | getTransaction : RpcMethod
  | getTokenAccountBalance : RpcMethod
  | getBlockHeight : RpcMethod
  | getMultipleAccounts : RpcMethod
deriving DecidableEq, Repr

/-- A single query of a batch request; the opaque `serde_json::Value` in
`params` is modelled by its serialized JSON text. -/
structure Query where
  id : String
  method : RpcMethod
  pubkey : Option String
  params : Option String
  commitment : Option String
deriving DecidableEq, Repr

/-- The result of one query; the opaque `serde_json::Value` payload in
`data` is modelled by its serialized JSON text, which is exactly what
`from_results` feeds to the hasher via `data.to_string()`. -/
structure QueryResult where
  id : String
  success : Bool
  data : Option String
  error : Option String
deriving DecidableEq, Repr

/-- `QueryResult::success`. -/
def QueryResult.mkSuccess (id data : String) : QueryResult :=
  { id := id, success := true, data := some data, error := none }

/-- `QueryResult::failure`. -/
def QueryResult.mkFailure (id error : String) : QueryResult :=
  { id := id, success := false, data := none, error := some error }

/-- A batch execution request. -/
structure BatchRequest where
  queries : List Query
  batch_hash : Option String
  batch_id : Option String
deriving DecidableEq, Repr

/-- The fully derived batch response. -/
structure BatchResponse where
  success : Bool
  results : List QueryResult
  execution_time_ms : Nat
  succeeded_count : Nat
  failed_count : Nat
  batch_hash : String
deriving DecidableEq, Repr

/-- The bytes one result contributes to the digest: the id bytes, one
byte b"1" or b"0" for the success flag, and the serialized data when
present — concatenated with no separator, exactly as the `hasher.update`
calls of `from_results`. -/
def resultHashBytes (r : QueryResult) : List Nat :=
  strBytes r.id ++ (if r.success then [49] else [48]) ++
    (match r.data with
     | some d => strBytes d
     | none => [])

/-- The digest input: the per result byte runs in result order. -/
def hashPreimage (results : List QueryResult) : List Nat :=
  results.foldl (fun acc r => acc ++ resultHashBytes r) []

/-- Model of `BatchResponse::from_results`. -/
def BatchResponse.from_results (results : List QueryResult)
    (execution_time_ms : Nat) : BatchResponse :=
  let succeeded_count := (results.filter (fun r => r.success)).length
  let failed_count := results.length - succeeded_count
  { success := failed_count == 0
    results := results
    execution_time_ms := execution_time_ms
    succeeded_count := succeeded_count
    failed_count := failed_count
    batch_hash := hexEncode (sha256 (hashPreimage results)) }

/-- Outcome of one spawned query task: either the task ran to completion
producing a `QueryResult`, or the work unit itself failed (panic or
cancellation of the task), which `execute_batch` converts into a
`Failure` result with the sentinel id "unknown". -/
inductive TaskOutcome where
  | ok : QueryResult → TaskOutcome
  | joinError : String → TaskOutcome

/-- How `execute_batch` turns one awaited join handle into a result. -/
def runTask (exec : Query → TaskOutcome) (q : Query) : QueryResult :=
  match exec q with
  | TaskOutcome.ok r => r
  | TaskOutcome.joinError e =>
    QueryResult.mkFailure ("unknown") ("Task execution failed: " ++ e)

namespace BatchExecutor

/-- Model of `BatchExecutor::execute_batch`.  The concurrent fan out is
abstracted by the oracle `exec` giving the outcome of each spawned task;
the join handles are awaited in input order, so the collected results
follow the order of `request.queries`; the wall clock elapsed time is a
parameter. -/
def execute_batch (exec : Query → TaskOutcome) (execution_time_ms : Nat)
    (request : BatchRequest) : Except ProxyError BatchResponse :=
  if request.queries.isEmpty then Except.error ProxyError.emptyBatch
  else if request.queries.length > MAX_BATCH_SIZE then
    Except.error (ProxyError.batch_too_large request.queries.length)
  else
    Except.ok
      (BatchResponse.from_results (request.queries.map (runTask exec)) execution_time_ms)

end BatchExecutor

/-- Outcome of running code that can panic but never returns `None`. -/
inductive RunOutcome (α : Type) where
  | panics : RunOutcome α
  | value : α → RunOutcome α
deriving DecidableEq, Repr

/-- Decimal value of a digit run, `none` on a non digit or empty run. -/
def digitsVal : List Char → Option Nat
  | [] => none
  | cs =>
    cs.foldl
      (fun acc c =>
        match acc with
        | none => none
        | some n =>
          if 48 ≤ c.toNat ∧ c.toNat ≤ 57 then some (n * 10 + (c.toNat - 48))
          else none)
      (some 0)

/-- `str::parse::<u64>()`: an optional leading plus sign, then decimal
digits, rejecting the empty string and values outside the u64 range. -/
def parseU64 (s : String) : Option Nat :=
  let cs :=
    match s.data with
    | c :: rest => if c = '+' then rest else s.data
    | [] => []
  match digitsVal cs with
  | some n => if n < 2 ^ 64 then some n else none
  | none => none

/-- The `Debug` rendering of a status, as interpolated into the handler
error message. -/
def statusDebug : OnChainBatchStatus → String
  | OnChainBatchStatus.pending => "Pending"
  | OnChainBatchStatus.finalized => "Finalized"
  | OnChainBatchStatus.executed => "Executed"

namespace Handlers

/-- Model of the `execute_batch` HTTP handler.  The coordinator reader
is optional application state, modelled down to its account byte oracle;
when the request carries a batch id and the reader is configured, the on
chain batch is fetched and must exist with status `Finalized` before the
executor is invoked.  A panic inside the decoder propagates. -/
def execute_batch (coordinator : Option (Nat → Option (List Nat)))
    (exec : Query → TaskOutcome) (execution_time_ms : Nat)
    (request : BatchRequest) : RunOutcome (Except ProxyError BatchResponse) :=
  match request.batch_id, coordinator with
  | some bidStr, some acct =>
    match parseU64 bidStr with
    | none =>
      RunOutcome.value (Except.error (ProxyError.invalidQuery
        ("Invalid batch_id: " ++ bidStr)))
    | some bid =>
      match CoordinatorReader.get_batch acct bid with
      | ParseOutcome.panics => RunOutcome.panics
      | ParseOutcome.absent =>
        RunOutcome.value (Except.error (ProxyError.invalidQuery
          ("Batch " ++ toString bid ++ " not found on-chain")))
      | ParseOutcome.found batch =>
        if batch.status ≠ OnChainBatchStatus.finalized then
          RunOutcome.value (Except.error (ProxyError.invalidQuery
            ("Batch " ++ toString bid ++ " is not finalized (status: " ++
              statusDebug batch.status ++ ")")))
        else
          RunOutcome.value (BatchExecutor.execute_batch exec execution_time_ms request)
  | _, _ => RunOutcome.value (BatchExecutor.execute_batch exec execution_time_ms request)

end Handlers

namespace BatchPoller

/-- Model of `BatchPoller::verify_batch_finalized`. -/
def verify_batch_finalized (batchAccount : Nat → Option (List Nat))
    (batch_id : Nat) : RunOutcome Bool :=
  match CoordinatorReader.get_batch batchAccount batch_id with
  | ParseOutcome.panics => RunOutcome.panics
  | ParseOutcome.absent => RunOutcome.value false
  | ParseOutcome.found b =>
    RunOutcome.value (decide (b.status = OnChainBatchStatus.finalized))

/-- Model of `BatchPoller::poll_once` over a snapshot `finalized` of the
finalized batches returned by the scan: the ids already in the processed
set are filtered out against a read snapshot of the set, every surviving
batch goes through the discovery handling (`handle_finalized_batch`) and
its id is inserted.  Returns the ids handled this cycle together with
the new processed set (membership is what matters, so the set is kept as
a list). -/
def poll_once (finalized : List OnChainBatch) (processed : List Nat) :
    List Nat × List Nat :=
  let newIds := (finalized.filter (fun b => ! processed.contains b.id)).map
    (fun b => b.id)
  (newIds, processed ++ newIds)

/-- The processed set after `n` cycles over an unchanged ledger state. -/
def processedAfter (finalized : List OnChainBatch) (processed : List Nat) :
    Nat → List Nat
  | 0 => processed
  | n + 1 => (poll_once finalized (processedAfter finalized processed n)).2

end BatchPoller

/- ### Concrete fixtures used by the theorems below -/

/-- A coordinator config account buffer per the layout read by
`get_batch_counter`: discriminator, authority, min, max, counter, bump. -/
def encConfig (minB maxB counter : Nat) : List Nat :=
  List.replicate 8 0 ++ List.replicate 32 0 ++ [minB] ++ [maxB] ++
    le8 counter ++ [0]

/-- A ledger where the account of batch 0 is unreachable over the
network, batches 1 and 2 are finalized, and the account bytes of every
id from 3 on are malformed in a way that panics the decoder — so a probe
of any id outside 0, 1, 2 would surface as a panic. -/
def acctProbe : Nat → Option (List Nat) := fun i =>
  if i = 0 then none
  else if i < 3 then some (encBatchMin i 1)
  else some (List.replicate 20 0)

/-- A ledger whose batch 1 account bytes are malformed: 20 zero bytes,
long enough to pass the up front length check of the decoder but
truncated in the middle of a field. -/
def acctPanic : Nat → Option (List Nat) := fun i =>
  if i = 1 then some (List.replicate 20 0) else some (encBatchMin i 1)

/-- A task oracle that lets every query succeed with payload null. -/
def execQ0 : Query → TaskOutcome := fun q =>
  TaskOutcome.ok (QueryResult.mkSuccess q.id ("null"))

/-- A single well formed query. -/
def q1 : Query :=
  { id := "1", method := RpcMethod.getBalance, pubkey := some ("k"),
    params := none, commitment := none }

/-- A request with 101 queries, one over the admission ceiling. -/
def req101 : BatchRequest :=
  { queries := List.replicate 101 q1, batch_hash := none, batch_id := none }

/-- A query with the given id. -/
def qid (s : String) : Query :=
  { id := s, method := RpcMethod.getBalance, pubkey := some ("k"),
    params := none, commitment := none }

/-- A task oracle where exactly the query with id 2 fails (malformed
target parameter). -/
def exec3 : Query → TaskOutcome := fun q =>
  if q.id = "2" then TaskOutcome.ok (QueryResult.mkFailure q.id ("Invalid pubkey"))
  else TaskOutcome.ok (QueryResult.mkSuccess q.id ("null"))

/-- The 3 query batch of the claim about aggregation. -/
def req3 : BatchRequest :=
  { queries := [qid ("1"), qid ("2"), qid ("3")], batch_hash := none,
    batch_id := none }

/-- A failed result with id 0. -/
def rShort : QueryResult :=
  { id := "0", success := false, data := none, error := some ("e") }

/-- A failed result with id 00. -/
def rLong : QueryResult :=
  { id := "00", success := false, data := none, error := some ("e") }

/-- A ledger where the account of batch 5 is unreachable and every other
batch is pending. -/
def acctW : Nat → Option (List Nat) := fun i =>
  if i = 5 then none else some (encBatchMin i 0)

/-- A request referencing on chain batch 5. -/
def reqA : BatchRequest :=
  { queries := [q1], batch_hash := none, batch_id := some ("5") }

/-- A request referencing on chain batch 6. -/
def reqB : BatchRequest :=
  { queries := [q1], batch_hash := none, batch_id := some ("6") }

/-- A ledger where every batch account decodes as Finalized with zero
query_count, no hashes and no submitters. -/
def acctF : Nat → Option (List Nat) := fun i => some (encBatchMin i 1)

/-- A request of two queries referencing on chain batch 3, whose on
chain record has query_count 0 and no hashes — a content mismatch. -/
def reqC : BatchRequest :=
  { queries := [qid ("1"), qid ("2")], batch_hash := none,
    batch_id := some ("3") }

/-- The on chain record batch 3 decodes to. -/
def bOn3 : OnChainBatch :=
  { id := 3, status := OnChainBatchStatus.finalized, query_count := 0,
    query_hashes := [], submitters := [], created_at := 0,
    finalized_at := none, results_hash := none }

/-- A finalized batch with id 5. -/
def batch5 : OnChainBatch :=
  { id := 5, status := OnChainBatchStatus.finalized, query_count := 0,
    query_hashes := [], submitters := [], created_at := 0,
    finalized_at := none, results_hash := none }

/- The well formed batch buffer of the decode claim, written as nested
suffixes so each field offset corresponds to one suffix: id 7, status 1
(Finalized), query_count 2, two 32 byte query hashes, two 32 byte
submitters, created_at 1000, finalized_at flag 1 with value 1050,
results_hash flag 0, bump 77. -/

/-- Suffix from offset 171: results_hash flag 0, then the bump byte. -/
abbrev tailResFlag : List Nat := [0] ++ [77]

/-- Suffix from offset 163: the finalized_at value 1050. -/
abbrev tailFinVal : List Nat := le8 1050 ++ tailResFlag

/-- Suffix from offset 162: the finalized_at flag 1. -/
abbrev tailFinFlag : List Nat := [1] ++ tailFinVal

/-- Suffix from offset 154: created_at 1000. -/
abbrev tailCreated : List Nat := le8 1000 ++ tailFinFlag

/-- Suffix from offset 122: the second submitter. -/
abbrev tailSub2 (sb2 : List Nat) : List Nat := sb2 ++ tailCreated

/-- Suffix from offset 90: the first submitter. -/
abbrev tailSub1 (sb1 sb2 : List Nat) : List Nat := sb1 ++ tailSub2 sb2

/-- Suffix from offset 86: the submitters vector length 2. -/
abbrev tailSubLen (sb1 sb2 : List Nat) : List Nat := le4 2 ++ tailSub1 sb1 sb2

/-- Suffix from offset 54: the second query hash. -/
abbrev tailHash2 (qh2 sb1 sb2 : List Nat) : List Nat := qh2 ++ tailSubLen sb1 sb2

/-- Suffix from offset 22: the first query hash. -/
abbrev tailHash1 (qh1 qh2 sb1 sb2 : List Nat) : List Nat :=
  qh1 ++ tailHash2 qh2 sb1 sb2

/-- Suffix from offset 18: the query_hashes vector length 2. -/
abbrev tailHashLen (qh1 qh2 sb1 sb2 : List Nat) : List Nat :=
  le4 2 ++ tailHash1 qh1 qh2 sb1 sb2

/-- Suffix from offset 17: query_count 2. -/
abbrev tailCount (qh1 qh2 sb1 sb2 : List Nat) : List Nat :=
  [2] ++ tailHashLen qh1 qh2 sb1 sb2

/-- Suffix from offset 16: the status byte 1. -/
abbrev tailStatus (qh1 qh2 sb1 sb2 : List Nat) : List Nat :=
  [1] ++ tailCount qh1 qh2 sb1 sb2

/-- Suffix from offset 8: the id 7. -/
abbrev tailId (qh1 qh2 sb1 sb2 : List Nat) : List Nat :=
  le8 7 ++ tailStatus qh1 qh2 sb1 sb2

/-- The full buffer: an 8 byte discriminator, then the fields. -/
abbrev encBatch78 (qh1 qh2 sb1 sb2 : List Nat) : List Nat :=
  List.replicate 8 0 ++ tailId qh1 qh2 sb1 sb2

/- ### Basic laws of the outcome monad and the byte readers -/

namespace ParseOutcome

@[simp] theorem bind_found {α β : Type} (a : α) (f : α → ParseOutcome β) :
    bind (found a) f = f a := rfl

@[simp] theorem bind_absent {α β : Type} (f : α → ParseOutcome β) :
    bind absent f = absent := rfl

@[simp] theorem bind_panics {α β : Type} (f : α → ParseOutcome β) :
    bind panics f = panics := rfl

end ParseOutcome

example : CoordinatorReader.parse_batch_data (encBatchMin 7 1) =
    ParseOutcome.found
      { id := 7, status := OnChainBatchStatus.finalized, query_count := 0,
        query_hashes := [], submitters := [], created_at := 0,
        finalized_at := none, results_hash := none } := by decide

example : hexEncode (sha256 []) =
    ("e3b0c44298fc1c149afbf4c8996fb92427ae41e4649b934ca495991b7852b855") := by decide

example : hexEncode (sha256 (strBytes ("abc"))) =
    ("ba7816bf8f01cfea414140de5dae2223b00361a396177a9cb410ff61f20015ad") := by decide

/- ### C1 -/

/-- C1: the claim says the decoder is total and returns absent on every
truncated buffer; the code is not: the 20 byte all zero buffer is a
strict prefix of the fully valid 37 byte minimal batch buffer (which
decodes to a complete record), passes the single up front length check
`data.len() < 20`, and then hits an out of range slice — a Rust panic —
instead of returning absent. -/
theorem parse_batch_data_truncation_code_bug :
    CoordinatorReader.parse_batch_data (encBatchMin 0 0) =
      ParseOutcome.found
        { id := 0, status := OnChainBatchStatus.pending, query_count := 0,
          query_hashes := [], submitters := [], created_at := 0,
          finalized_at := none, results_hash := none }
    ∧ (encBatchMin 0 0).take 20 = List.replicate 20 0
    ∧ (encBatchMin 0 0).length = 37
    ∧ CoordinatorReader.parse_batch_data (List.replicate 20 0) =
        ParseOutcome.panics := by
  exact ⟨by decide, by decide, by decide, by decide⟩

/- ### C6 -/

/-- C6: with batch_counter = 3 the scan probes exactly ids 0, 1, 2 (here
every id from 3 on would panic the decoder, so the found result proves
they are not probed), a network failure on id 0 merely omits that id,
and non probed ids never appear.  But the claim also says a decode
failure is never fatal to the scan, and the code violates that: a batch
account whose bytes are 20 zero bytes panics the decoder and aborts the
whole scan instead of omitting the id. -/
theorem find_finalized_batches_scan_code_bug :
    CoordinatorReader.find_finalized_batches (some (encConfig 5 20 3)) acctProbe =
      ParseOutcome.found
        [{ id := 1, status := OnChainBatchStatus.finalized, query_count := 0,
           query_hashes := [], submitters := [], created_at := 0,
           finalized_at := none, results_hash := none },
         { id := 2, status := OnChainBatchStatus.finalized, query_count := 0,
           query_hashes := [], submitters := [], created_at := 0,
           finalized_at := none, results_hash := none }]
    ∧ CoordinatorReader.find_finalized_batches (some (encConfig 5 20 3)) acctPanic =
        ParseOutcome.panics := by
  exact ⟨by decide, by decide⟩

/- ### C2 -/

/-- C2: admission control runs before any dispatch: an empty query list
yields `EmptyBatch`, a list longer than the fixed ceiling 100 yields
`BatchTooLarge` carrying the actual length and the maximum 100, and in
both cases the outcome is the same whatever the task oracle does, i.e.
no query is dispatched. -/
theorem execute_batch_admission (exec : Query → TaskOutcome) (t : Nat)
    (req : BatchRequest) :
    (req.queries = [] →
      BatchExecutor.execute_batch exec t req = Except.error ProxyError.emptyBatch)
    ∧ (req.queries.length > MAX_BATCH_SIZE →
      BatchExecutor.execute_batch exec t req =
        Except.error (ProxyError.batchTooLarge req.queries.length 100))
    ∧ ((req.queries = [] ∨ req.queries.length > MAX_BATCH_SIZE) →
      ∀ exec2 : Query → TaskOutcome,
        BatchExecutor.execute_batch exec t req =
          BatchExecutor.execute_batch exec2 t req) := by
  refine ⟨fun h => ?_, fun h => ?_, fun h exec2 => ?_⟩
  · simp [BatchExecutor.execute_batch, h]
  · have hne : req.queries ≠ [] := by
      intro he
      rw [he] at h
      exact absurd h (by decide)
    have hie : req.queries.isEmpty = false := by
      cases hq : req.queries with
      | nil => exact absurd hq hne
      | cons a l => rfl
    simp only [BatchExecutor.execute_batch, hie, Bool.false_eq_true,
      if_false, ProxyError.batch_too_large, MAX_BATCH_SIZE]
    exact if_pos (show req.queries.length > 100 from h)
  · rcases h with h | h
    · simp [BatchExecutor.execute_batch, h]
    · have hne : req.queries ≠ [] := by
        intro he
        rw [he] at h
        exact absurd h (by decide)
      have hie : req.queries.isEmpty = false := by
        cases hq : req.queries with
        | nil => exact absurd hq hne
        | cons a l => rfl
      simp [BatchExecutor.execute_batch, hie, h]

/-- C2 witness: 0 queries give `EmptyBatch`; 101 queries against the
ceiling 100 give `BatchTooLarge` with actual 101 and max 100. -/
theorem execute_batch_admission_witness :
    BatchExecutor.execute_batch execQ0 0
      { queries := [], batch_hash := none, batch_id := none } =
      Except.error ProxyError.emptyBatch
    ∧ BatchExecutor.execute_batch execQ0 0 req101 =
      Except.error (ProxyError.batchTooLarge 101 100) :=
  ⟨(execute_batch_admission execQ0 0
      { queries := [], batch_hash := none, batch_id := none }).1 rfl,
   (execute_batch_admission execQ0 0 req101).2.1 (by decide)⟩

/- ### C3 -/

/-- The four derived field laws of `from_results`: the counts partition
the results on the success flag, they sum to the number of results, and
the batch level flag is exactly `failed_count == 0`. -/
theorem from_results_spec (results : List QueryResult) (t : Nat) :
    (BatchResponse.from_results results t).succeeded_count =
        (results.filter (fun r => r.success)).length
    ∧ (BatchResponse.from_results results t).failed_count =
        (results.filter (fun r => ! r.success)).length
    ∧ (BatchResponse.from_results results t).succeeded_count +
        (BatchResponse.from_results results t).failed_count = results.length
    ∧ ((BatchResponse.from_results results t).success = true ↔
        (BatchResponse.from_results results t).failed_count = 0) := by
  have hsplit : results.length = (results.filter (fun r => r.success)).length +
      (results.filter (fun r => ! r.success)).length := by
    simpa using List.length_eq_length_filter_add (l := results) (fun r => r.success)
  refine ⟨rfl, ?_, ?_, ?_⟩
  · show results.length - (results.filter (fun r => r.success)).length = _
    rw [hsplit, Nat.add_sub_cancel_left]
  · show (results.filter (fun r => r.success)).length +
      (results.length - (results.filter (fun r => r.success)).length) = _
    omega
  · show ((results.length - (results.filter (fun r => r.success)).length == 0) = true)
      ↔ results.length - (results.filter (fun r => r.success)).length = 0
    exact beq_iff_eq

/-- C3: an admitted batch is answered with `Ok`: the results are the per
query outcomes in the input order of the queries, the counts partition
the results on the success flag and sum to the query count, and batch
level success holds exactly when nothing failed. -/
theorem execute_batch_aggregation (exec : Query → TaskOutcome) (t : Nat)
    (req : BatchRequest) (h1 : req.queries ≠ [])
    (h2 : req.queries.length ≤ MAX_BATCH_SIZE) :
    ∃ resp : BatchResponse,
      BatchExecutor.execute_batch exec t req = Except.ok resp
      ∧ resp.results = req.queries.map (runTask exec)
      ∧ resp.succeeded_count = (resp.results.filter (fun r => r.success)).length
      ∧ resp.failed_count = (resp.results.filter (fun r => ! r.success)).length
      ∧ resp.succeeded_count + resp.failed_count = req.queries.length
      ∧ (resp.success = true ↔ resp.failed_count = 0) := by
  have hie : req.queries.isEmpty = false := by
    cases hq : req.queries with
    | nil => exact absurd hq h1
    | cons a l => rfl
  refine ⟨BatchResponse.from_results (req.queries.map (runTask exec)) t,
    ?_, rfl, ?_, ?_, ?_, ?_⟩
  · simp only [BatchExecutor.execute_batch, hie, Bool.false_eq_true, if_false]
    exact if_neg (Nat.not_lt.mpr h2)
  · exact (from_results_spec (req.queries.map (runTask exec)) t).1
  · exact (from_results_spec (req.queries.map (runTask exec)) t).2.1
  · exact ((from_results_spec (req.queries.map (runTask exec)) t).2.2.1).trans
      (List.length_map req.queries (runTask exec))
  · exact (from_results_spec (req.queries.map (runTask exec)) t).2.2.2

/-- C3 witness: the 3 query batch where query 2 fails yields
succeeded_count 2, failed_count 1, success false, and all three ids in
input order. -/
theorem execute_batch_aggregation_witness :
    (∃ resp : BatchResponse,
      BatchExecutor.execute_batch exec3 7 req3 = Except.ok resp
      ∧ resp.results = req3.queries.map (runTask exec3)
      ∧ resp.succeeded_count = (resp.results.filter (fun r => r.success)).length
      ∧ resp.failed_count = (resp.results.filter (fun r => ! r.success)).length
      ∧ resp.succeeded_count + resp.failed_count = req3.queries.length
      ∧ (resp.success = true ↔ resp.failed_count = 0))
    ∧ (BatchExecutor.execute_batch exec3 7 req3).toOption.map
        (fun r => (r.succeeded_count, r.failed_count, r.success,
          r.results.map (fun x => x.id)))
      = some (2, 1, false, ["1", "2", "3"]) :=
  ⟨execute_batch_aggregation exec3 7 req3 (by decide) (by decide), by decide⟩

/- ### C4 -/

/-- Splitting off the accumulator of the digest fold. -/
theorem foldl_resultHashBytes_shift (l : List QueryResult) (acc : List Nat) :
    l.foldl (fun a r => a ++ resultHashBytes r) acc =
      acc ++ l.foldl (fun a r => a ++ resultHashBytes r) [] := by
  induction l generalizing acc with
  | nil => simp
  | cons x l ih =>
    rw [List.foldl_cons, List.foldl_cons, ih, ih (List.nil ++ resultHashBytes x)]
    simp [List.append_assoc]

/-- The digest input of a result sequence, one result at a time. -/
theorem hashPreimage_cons (r : QueryResult) (l : List QueryResult) :
    hashPreimage (r :: l) = resultHashBytes r ++ hashPreimage l := by
  show List.foldl _ (List.nil ++ resultHashBytes r) l = _
  simpa using foldl_resultHashBytes_shift l (resultHashBytes r)

/-- The bytes a result feeds to the hasher depend only on its id, its
success flag and its data payload. -/
theorem resultHashBytes_proj (r r2 : QueryResult)
    (h : (r.id, r.success, r.data) = (r2.id, r2.success, r2.data)) :
    resultHashBytes r = resultHashBytes r2 := by
  simp only [Prod.mk.injEq] at h
  obtain ⟨h1, h2, h3⟩ := h
  simp [resultHashBytes, h1, h2, h3]

/-- The digest input depends only on the ordered projections. -/
theorem hashPreimage_congr (rs rs2 : List QueryResult)
    (h : rs.map (fun r => (r.id, r.success, r.data)) =
      rs2.map (fun r => (r.id, r.success, r.data))) :
    hashPreimage rs = hashPreimage rs2 := by
  induction rs generalizing rs2 with
  | nil =>
    cases rs2 with
    | nil => rfl
    | cons b l2 => exact absurd h (by simp)
  | cons a l ih =>
    cases rs2 with
    | nil => exact absurd h (by simp)
    | cons b l2 =>
      simp only [List.map_cons, List.cons.injEq] at h
      rw [hashPreimage_cons, hashPreimage_cons, resultHashBytes_proj a b h.1,
        ih l2 h.2]

/-- C4 counterexample: the two distinct results with ids 0 and 00 can be
reordered (a transposition, hence a permutation changing the sequence)
without changing `batch_hash`: the id bytes, flag byte and data bytes
are concatenated with no separator, so both orders feed the identical
byte run 0 0 0 0 0 to the hasher.  This refutes the claim that every
reordering changes the hash. -/
theorem batch_hash_reorder_counterexample :
    rShort ≠ rLong
    ∧ List.Perm [rShort, rLong] [rLong, rShort]
    ∧ [rShort, rLong] ≠ [rLong, rShort]
    ∧ (BatchResponse.from_results [rShort, rLong] 5).batch_hash =
        (BatchResponse.from_results [rLong, rShort] 5).batch_hash := by
  refine ⟨by decide, List.Perm.swap rLong rShort [], by decide, ?_⟩
  show hexEncode (sha256 (hashPreimage [rShort, rLong])) =
      hexEncode (sha256 (hashPreimage [rLong, rShort]))
  rw [show hashPreimage [rShort, rLong] = hashPreimage [rLong, rShort] from by decide]

/-- C4 amended: `batch_hash` is a deterministic function of the ordered
sequence of (id, success flag, data or nothing) tuples — equal ordered
projections give equal hashes, whatever the elapsed time — but a
reordering of the sequence does not always change the hash, because the
hashed material carries no separators between fields or records. -/
theorem batch_hash_depends_only_on_ordered_tuples (rs rs2 : List QueryResult)
    (t t2 : Nat)
    (h : rs.map (fun r => (r.id, r.success, r.data)) =
      rs2.map (fun r => (r.id, r.success, r.data))) :
    (BatchResponse.from_results rs t).batch_hash =
      (BatchResponse.from_results rs2 t2).batch_hash := by
  show hexEncode (sha256 (hashPreimage rs)) = hexEncode (sha256 (hashPreimage rs2))
  rw [hashPreimage_congr rs rs2 h]

/-- C4 witness: two sequences equal in the hashed projections (differing
in the unhashed error text) and different elapsed times give the same
hash. -/
theorem batch_hash_depends_only_on_ordered_tuples_witness :
    (BatchResponse.from_results [QueryResult.mkFailure ("a") ("x")] 1).batch_hash =
      (BatchResponse.from_results [QueryResult.mkFailure ("a") ("y")] 2).batch_hash :=
  batch_hash_depends_only_on_ordered_tuples
    [QueryResult.mkFailure ("a") ("x")] [QueryResult.mkFailure ("a") ("y")] 1 2
    (by decide)

/- ### C5 -/

/-- C5: when a request carries a (parseable) batch id and the reader is
configured, the ledger cross check decides the call before any dispatch:
a missing batch yields the not found client error and a batch whose
status is not Finalized yields the not finalized client error — in both
cases for every task oracle and clock, so no query is dispatched. -/
theorem handler_cross_check_errors (acct : Nat → Option (List Nat))
    (req : BatchRequest) (s : String) (bid : Nat)
    (hbid : req.batch_id = some s) (hp : parseU64 s = some bid) :
    (CoordinatorReader.get_batch acct bid = ParseOutcome.absent →
      ∀ (exec : Query → TaskOutcome) (t : Nat),
        Handlers.execute_batch (some acct) exec t req =
          RunOutcome.value (Except.error (ProxyError.invalidQuery
            ("Batch " ++ toString bid ++ " not found on-chain"))))
    ∧ (∀ b : OnChainBatch,
        CoordinatorReader.get_batch acct bid = ParseOutcome.found b →
        b.status ≠ OnChainBatchStatus.finalized →
        ∀ (exec : Query → TaskOutcome) (t : Nat),
          Handlers.execute_batch (some acct) exec t req =
            RunOutcome.value (Except.error (ProxyError.invalidQuery
              ("Batch " ++ toString bid ++ " is not finalized (status: " ++
                statusDebug b.status ++ ")")))) := by
  constructor
  · intro hab exec t
    unfold Handlers.execute_batch
    rw [hbid]
    simp [hp, hab]
  · intro b hfb hs exec t
    unfold Handlers.execute_batch
    rw [hbid]
    simp [hp, hfb, hs]

/-- C5 witness: a missing batch and a pending batch each fail the call
with the corresponding client error. -/
theorem handler_cross_check_errors_witness :
    Handlers.execute_batch (some acctW) execQ0 0 reqA =
      RunOutcome.value (Except.error (ProxyError.invalidQuery
        ("Batch 5 not found on-chain")))
    ∧ Handlers.execute_batch (some acctW) execQ0 0 reqB =
      RunOutcome.value (Except.error (ProxyError.invalidQuery
        ("Batch 6 is not finalized (status: Pending)"))) :=
  ⟨(handler_cross_check_errors acctW reqA ("5") 5 rfl (by decide)).1
      (by decide) execQ0 0,
   (handler_cross_check_errors acctW reqB ("6") 6 rfl (by decide)).2
      { id := 6, status := OnChainBatchStatus.pending, query_count := 0,
        query_hashes := [], submitters := [], created_at := 0,
        finalized_at := none, results_hash := none }
      (by decide) (by decide) execQ0 0⟩

/- ### C10 -/

/-- C10: the cross check looks only at existence and status.  Whenever
the referenced batch resolves and is Finalized — with no hypothesis at
all relating its query_hashes, query_count or submitters to the
submitted queries — the handler reduces to the bare executor call, and
for an admitted batch every submitted query is dispatched and answered
in order. -/
theorem handler_dispatches_when_finalized (acct : Nat → Option (List Nat))
    (req : BatchRequest) (s : String) (bid : Nat) (b : OnChainBatch)
    (hbid : req.batch_id = some s) (hp : parseU64 s = some bid)
    (hget : CoordinatorReader.get_batch acct bid = ParseOutcome.found b)
    (hs : b.status = OnChainBatchStatus.finalized) :
    (∀ (exec : Query → TaskOutcome) (t : Nat),
      Handlers.execute_batch (some acct) exec t req =
        RunOutcome.value (BatchExecutor.execute_batch exec t req))
    ∧ (req.queries ≠ [] → req.queries.length ≤ MAX_BATCH_SIZE →
      ∀ (exec : Query → TaskOutcome) (t : Nat),
        Handlers.execute_batch (some acct) exec t req =
          RunOutcome.value (Except.ok (BatchResponse.from_results
            (req.queries.map (runTask exec)) t))) := by
  have hmain : ∀ (exec : Query → TaskOutcome) (t : Nat),
      Handlers.execute_batch (some acct) exec t req =
        RunOutcome.value (BatchExecutor.execute_batch exec t req) := by
    intro exec t
    unfold Handlers.execute_batch
    rw [hbid]
    simp [hp, hget, hs]
  refine ⟨hmain, fun h1 h2 exec t => ?_⟩
  have hie : req.queries.isEmpty = false := by
    cases hq : req.queries with
    | nil => exact absurd hq h1
    | cons a l => rfl
  rw [hmain exec t]
  simp only [BatchExecutor.execute_batch, hie, Bool.false_eq_true, if_false]
  rw [if_neg (Nat.not_lt.mpr h2)]

/-- C10 witness: the two query request is fully dispatched although the
referenced finalized batch has query_count 0 and an empty hash list. -/
theorem handler_dispatches_when_finalized_witness :
    Handlers.execute_batch (some acctF) execQ0 4 reqC =
      RunOutcome.value (Except.ok (BatchResponse.from_results
        (reqC.queries.map (runTask execQ0)) 4))
    ∧ bOn3.query_count ≠ reqC.queries.length
    ∧ bOn3.query_hashes = [] :=
  ⟨(handler_dispatches_when_finalized acctF reqC ("3") 3 bOn3 rfl (by decide)
      (by decide) rfl).2 (by decide) (by decide) execQ0 4,
   by decide, by decide⟩

/- ### C7 -/

/-- An id already in the processed set is filtered out before the
discovery handling of a cycle. -/
theorem poll_once_not_mem (finalized : List OnChainBatch) (processed : List Nat)
    (i : Nat) (hi : i ∈ processed) :
    i ∉ (BatchPoller.poll_once finalized processed).1 := by
  intro hmem
  simp [BatchPoller.poll_once] at hmem
  obtain ⟨b, ⟨hbf, hnc⟩, hbid⟩ := hmem
  exact hnc (hbid ▸ hi)

/-- Every id handled in a cycle is recorded in the new processed set. -/
theorem poll_once_records (finalized : List OnChainBatch) (processed : List Nat)
    (i : Nat) (hi : i ∈ (BatchPoller.poll_once finalized processed).1) :
    i ∈ (BatchPoller.poll_once finalized processed).2 :=
  List.mem_append_right processed hi

/-- The processed set only grows across cycles. -/
theorem processedAfter_mono (finalized : List OnChainBatch)
    (processed : List Nat) (n m : Nat) (h : n ≤ m) :
    BatchPoller.processedAfter finalized processed n ⊆
      BatchPoller.processedAfter finalized processed m := by
  induction m with
  | zero =>
    rw [Nat.le_zero.mp h]
    exact fun x hx => hx
  | succ k ih =>
    rcases Nat.lt_or_ge n (k + 1) with hlt | hge
    · intro x hx
      have hx2 := ih (Nat.lt_succ_iff.mp hlt) hx
      exact List.mem_append_left _ hx2
    · rw [Nat.le_antisymm h hge]
      exact fun x hx => hx

/-- C7: the poller is idempotent over an unchanged ledger state: an id
in the processed set is never handled (membership filters it out before
handling), every handled id is recorded, and an id handled in cycle n is
never handled again in any later cycle m. -/
theorem poller_idempotent (finalized : List OnChainBatch) (processed : List Nat) :
    (∀ i ∈ processed, i ∉ (BatchPoller.poll_once finalized processed).1)
    ∧ (∀ i ∈ (BatchPoller.poll_once finalized processed).1,
        i ∈ (BatchPoller.poll_once finalized processed).2)
    ∧ (∀ n m i, n < m →
        i ∈ (BatchPoller.poll_once finalized
          (BatchPoller.processedAfter finalized processed n)).1 →
        i ∉ (BatchPoller.poll_once finalized
          (BatchPoller.processedAfter finalized processed m)).1) := by
  refine ⟨fun i hi => poll_once_not_mem finalized processed i hi,
    fun i hi => poll_once_records finalized processed i hi,
    fun n m i hnm hi => ?_⟩
  have hrec : i ∈ BatchPoller.processedAfter finalized processed (n + 1) :=
    poll_once_records finalized _ i hi
  have hmem : i ∈ BatchPoller.processedAfter finalized processed m :=
    processedAfter_mono finalized processed (n + 1) m hnm hrec
  exact poll_once_not_mem finalized _ i hmem

/-- C7 witness: once id 5 is processed, the next cycle over the same
ledger state handles nothing for it. -/
theorem poller_idempotent_witness :
    ((5 : Nat) ∈ ([5] : List Nat)
      ∧ 5 ∉ (BatchPoller.poll_once [batch5] [5]).1)
    ∧ (5 ∈ (BatchPoller.poll_once [batch5]
        (BatchPoller.processedAfter [batch5] [] 0)).1
      ∧ 5 ∉ (BatchPoller.poll_once [batch5]
        (BatchPoller.processedAfter [batch5] [] 1)).1) :=
  ⟨⟨by decide, (poller_idempotent [batch5] [5]).1 5 (by decide)⟩,
   ⟨by decide, (poller_idempotent [batch5] []).2.2 0 1 5 (by decide) (by decide)⟩⟩

/- ### C9 -/

/-- C9: the executor never reads the client supplied `batchHash`: two
requests identical except for that field produce the same outcome (same
error or same response), and on success the `batch_hash` of the response
is the server side digest of the ordered results. -/
theorem execute_batch_ignores_client_hash (exec : Query → TaskOutcome)
    (t : Nat) (qs : List Query) (bh bh2 bid : Option String) :
    BatchExecutor.execute_batch exec t
        { queries := qs, batch_hash := bh, batch_id := bid } =
      BatchExecutor.execute_batch exec t
        { queries := qs, batch_hash := bh2, batch_id := bid }
    ∧ ∀ resp : BatchResponse,
        BatchExecutor.execute_batch exec t
            { queries := qs, batch_hash := bh, batch_id := bid } =
          Except.ok resp →
        resp.batch_hash = hexEncode (sha256 (hashPreimage resp.results)) := by
  constructor
  · rfl
  · intro resp h
    unfold BatchExecutor.execute_batch at h
    split at h
    · exact absurd h (by simp)
    · split at h
      · exact absurd h (by simp)
      · rw [Except.ok.injEq] at h
        rw [← h]
        rfl

/-- C9 witness: a concrete request with and without a client hash. -/
theorem execute_batch_ignores_client_hash_witness :
    BatchExecutor.execute_batch execQ0 0
        { queries := [q1], batch_hash := some ("aa"), batch_id := none } =
      BatchExecutor.execute_batch execQ0 0
        { queries := [q1], batch_hash := none, batch_id := none }
    ∧ (BatchResponse.from_results [QueryResult.mkSuccess ("1") ("null")] 0).batch_hash =
        hexEncode (sha256 (hashPreimage
          (BatchResponse.from_results [QueryResult.mkSuccess ("1") ("null")] 0).results)) :=
  ⟨(execute_batch_ignores_client_hash execQ0 0 [q1] (some ("aa")) none none).1,
   (execute_batch_ignores_client_hash execQ0 0 [q1] (some ("aa")) none none).2
     (BatchResponse.from_results [QueryResult.mkSuccess ("1") ("null")] 0) rfl⟩

/- ### C8 -/

/-- A checked slice read at an offset whose suffix starts with `mid`. -/
theorem sliceB_of_drop (data mid rest : List Nat) (off n : Nat)
    (hd : data.drop off = mid ++ rest) (hn : mid.length = n)
    (hle : off + n ≤ data.length) :
    sliceB data off n = ParseOutcome.found mid := by
  unfold sliceB
  rw [if_pos hle, hd, List.take_left' hn]

/-- A byte read at an offset whose suffix starts with `b`. -/
theorem byteB_of_drop (data : List Nat) (b : Nat) (rest : List Nat)
    (off : Nat) (hd : data.drop off = b :: rest) :
    byteB data off = ParseOutcome.found b := by
  have h1 := List.getElem?_drop data off 0
  rw [Nat.add_zero] at h1
  unfold byteB
  rw [← h1, hd]
  simp

/-- Consuming one leading segment of a suffix advances the offset by its
length. -/
theorem drop_peel (data seg rest : List Nat) (off n : Nat)
    (hd : data.drop off = seg ++ rest) (hn : seg.length = n) :
    data.drop (off + n) = rest := by
  subst hn
  rw [← List.drop_drop, hd]
  exact List.drop_left seg rest

/-- The chunk loop on zero chunks. -/
theorem readChunks_zero (data : List Nat) (off : Nat) :
    readChunks data off 0 = ParseOutcome.found ([], off) := rfl

/-- The chunk loop on one more chunk. -/
theorem readChunks_succ (data : List Nat) (off k : Nat) :
    readChunks data off (k + 1) =
      ParseOutcome.bind (sliceB data off 32) (fun h =>
      ParseOutcome.bind (readChunks data (off + 32) k) (fun r =>
      ParseOutcome.found (h :: r.1, r.2))) := rfl

/-- C8: decoding the well formed little endian buffer with id 7, status
byte 1, query_count 2, any two 32 byte query hashes, any two 32 byte
submitter ids, created_at 1000, finalized_at flag 1 with value 1050 and
results_hash flag 0 yields exactly the claimed record: status Finalized,
both lists of length 2, finalized_at some 1050 and results_hash none. -/
theorem parse_batch_well_formed (qh1 qh2 sb1 sb2 : List Nat)
    (e1 : qh1.length = 32) (e2 : qh2.length = 32)
    (e3 : sb1.length = 32) (e4 : sb2.length = 32) :
    CoordinatorReader.parse_batch_data (encBatch78 qh1 qh2 sb1 sb2) =
      ParseOutcome.found
        { id := 7, status := OnChainBatchStatus.finalized, query_count := 2,
          query_hashes := [qh1, qh2], submitters := [sb1, sb2],
          created_at := 1000, finalized_at := some 1050,
          results_hash := none } := by
  have hlen : (encBatch78 qh1 qh2 sb1 sb2).length = 173 := by
    simp [encBatch78, tailId, tailStatus, tailCount, tailHashLen, tailHash1,
      tailHash2, tailSubLen, tailSub1, tailSub2, tailCreated, tailFinFlag,
      tailFinVal, tailResFlag, le8, le4, e1, e2, e3, e4]
  have d8 : (encBatch78 qh1 qh2 sb1 sb2).drop 8 = tailId qh1 qh2 sb1 sb2 :=
    List.drop_left' (by simp)
  have d16 : (encBatch78 qh1 qh2 sb1 sb2).drop 16 = tailStatus qh1 qh2 sb1 sb2 :=
    drop_peel _ (le8 7) _ 8 8 d8 rfl
  have d17 : (encBatch78 qh1 qh2 sb1 sb2).drop 17 = tailCount qh1 qh2 sb1 sb2 :=
    drop_peel _ [1] _ 16 1 d16 rfl
  have d18 : (encBatch78 qh1 qh2 sb1 sb2).drop 18 = tailHashLen qh1 qh2 sb1 sb2 :=
    drop_peel _ [2] _ 17 1 d17 rfl
  have d22 : (encBatch78 qh1 qh2 sb1 sb2).drop 22 = tailHash1 qh1 qh2 sb1 sb2 :=
    drop_peel _ (le4 2) _ 18 4 d18 rfl
  have d54 : (encBatch78 qh1 qh2 sb1 sb2).drop 54 = tailHash2 qh2 sb1 sb2 :=
    drop_peel _ qh1 _ 22 32 d22 e1
  have d86 : (encBatch78 qh1 qh2 sb1 sb2).drop 86 = tailSubLen sb1 sb2 :=
    drop_peel _ qh2 _ 54 32 d54 e2
  have d90 : (encBatch78 qh1 qh2 sb1 sb2).drop 90 = tailSub1 sb1 sb2 :=
    drop_peel _ (le4 2) _ 86 4 d86 rfl
  have d122 : (encBatch78 qh1 qh2 sb1 sb2).drop 122 = tailSub2 sb2 :=
    drop_peel _ sb1 _ 90 32 d90 e3
  have d154 : (encBatch78 qh1 qh2 sb1 sb2).drop 154 = tailCreated :=
    drop_peel _ sb2 _ 122 32 d122 e4
  have d162 : (encBatch78 qh1 qh2 sb1 sb2).drop 162 = tailFinFlag :=
    drop_peel _ (le8 1000) _ 154 8 d154 rfl
  have d163 : (encBatch78 qh1 qh2 sb1 sb2).drop 163 = tailFinVal :=
    drop_peel _ [1] _ 162 1 d162 rfl
  have d171 : (encBatch78 qh1 qh2 sb1 sb2).drop 171 = tailResFlag :=
    drop_peel _ (le8 1050) _ 163 8 d163 rfl
  have s8 : sliceB (encBatch78 qh1 qh2 sb1 sb2) 8 8 =
      ParseOutcome.found (le8 7) :=
    sliceB_of_drop _ _ _ 8 8 d8 rfl (by rw [hlen]; decide)
  have b16 : byteB (encBatch78 qh1 qh2 sb1 sb2) 16 = ParseOutcome.found 1 :=
    byteB_of_drop _ 1 _ 16 d16
  have b17 : byteB (encBatch78 qh1 qh2 sb1 sb2) 17 = ParseOutcome.found 2 :=
    byteB_of_drop _ 2 _ 17 d17
  have s18 : sliceB (encBatch78 qh1 qh2 sb1 sb2) 18 4 =
      ParseOutcome.found (le4 2) :=
    sliceB_of_drop _ _ _ 18 4 d18 rfl (by rw [hlen]; decide)
  have s22 : sliceB (encBatch78 qh1 qh2 sb1 sb2) 22 32 =
      ParseOutcome.found qh1 :=
    sliceB_of_drop _ _ _ 22 32 d22 e1 (by rw [hlen]; decide)
  have s54 : sliceB (encBatch78 qh1 qh2 sb1 sb2) 54 32 =
      ParseOutcome.found qh2 :=
    sliceB_of_drop _ _ _ 54 32 d54 e2 (by rw [hlen]; decide)
  have s86 : sliceB (encBatch78 qh1 qh2 sb1 sb2) 86 4 =
      ParseOutcome.found (le4 2) :=
    sliceB_of_drop _ _ _ 86 4 d86 rfl (by rw [hlen]; decide)
  have s90 : sliceB (encBatch78 qh1 qh2 sb1 sb2) 90 32 =
      ParseOutcome.found sb1 :=
    sliceB_of_drop _ _ _ 90 32 d90 e3 (by rw [hlen]; decide)
  have s122 : sliceB (encBatch78 qh1 qh2 sb1 sb2) 122 32 =
      ParseOutcome.found sb2 :=
    sliceB_of_drop _ _ _ 122 32 d122 e4 (by rw [hlen]; decide)
  have s154 : sliceB (encBatch78 qh1 qh2 sb1 sb2) 154 8 =
      ParseOutcome.found (le8 1000) :=
    sliceB_of_drop _ _ _ 154 8 d154 rfl (by rw [hlen]; decide)
  have b162 : byteB (encBatch78 qh1 qh2 sb1 sb2) 162 = ParseOutcome.found 1 :=
    byteB_of_drop _ 1 _ 162 d162
  have s163 : sliceB (encBatch78 qh1 qh2 sb1 sb2) 163 8 =
      ParseOutcome.found (le8 1050) :=
    sliceB_of_drop _ _ _ 163 8 d163 rfl (by rw [hlen]; decide)
  have b171 : byteB (encBatch78 qh1 qh2 sb1 sb2) 171 = ParseOutcome.found 0 :=
    byteB_of_drop _ 0 _ 171 d171
  have c1 : readChunks (encBatch78 qh1 qh2 sb1 sb2) 22 2 =
      ParseOutcome.found ([qh1, qh2], 86) := by
    rw [readChunks_succ, s22]
    simp only [ParseOutcome.bind_found]
    rw [show (22 : Nat) + 32 = 54 from rfl, readChunks_succ, s54]
    simp only [ParseOutcome.bind_found]
    rw [show (54 : Nat) + 32 = 86 from rfl, readChunks_zero]
    rfl
  have c2 : readChunks (encBatch78 qh1 qh2 sb1 sb2) 90 2 =
      ParseOutcome.found ([sb1, sb2], 154) := by
    rw [readChunks_succ, s90]
    simp only [ParseOutcome.bind_found]
    rw [show (90 : Nat) + 32 = 122 from rfl, readChunks_succ, s122]
    simp only [ParseOutcome.bind_found]
    rw [show (122 : Nat) + 32 = 154 from rfl, readChunks_zero]
    rfl
  have v7 : leNat (le8 7) = 7 := by decide
  have v2 : leNat (le4 2) = 2 := by decide
  have vca : i64OfLe (le8 1000) = 1000 := by decide
  have vfa : i64OfLe (le8 1050) = 1050 := by decide
  simp [CoordinatorReader.parse_batch_data, hlen, s8, b16, b17, s18, v7, v2,
    c1, s86, c2, s154, vca, b162, vfa, s163, b171]

/-- C8 witness: the concrete instance with four distinct constant 32
byte chunks decodes to the claimed record. -/
theorem parse_batch_well_formed_witness :
    (List.replicate 32 170).length = 32
    ∧ CoordinatorReader.parse_batch_data
        (encBatch78 (List.replicate 32 170) (List.replicate 32 187)
          (List.replicate 32 204) (List.replicate 32 221)) =
      ParseOutcome.found
        { id := 7, status := OnChainBatchStatus.finalized, query_count := 2,
          query_hashes := [List.replicate 32 170, List.replicate 32 187],
          submitters := [List.replicate 32 204, List.replicate 32 221],
          created_at := 1000, finalized_at := some 1050,
          results_hash := none } :=
  ⟨by decide,
   parse_batch_well_formed (List.replicate 32 170) (List.replicate 32 187)
     (List.replicate 32 204) (List.replicate 32 221)
     (by decide) (by decide) (by decide) (by decide)⟩
